import Mathlib

/-!
Shallow embedding of the TaglessCRM event-delivery pipeline:
the v2 data-connector operator loop, the task-group tasks, the base DAG
wiring, the layered variable resolver, and the sink-sender contract of the
v2 ads hooks (the hook modules themselves are absent from the snapshot and
are modelled from the spec and their unit tests).
-/

namespace TaglessCRM

/-- A record is an opaque mapping of field name to value
(plugins.pipeline_plugins.utils.blob: one business event). -/
abbrev Record := List (String × String)

/-- Sink acknowledgment payload, opaque to the core. -/
abbrev Report := Nat

/-- Numeric error code from utils.errors (ErrorNameIDMap values). -/
abbrev ErrorCode := Nat

/-- The unit of work moved through the pipeline
(plugins.pipeline_plugins.utils.blob.Blob). -/
structure Blob where
  events : List Record
  location : String
  position : Nat
  num_rows : Nat
  failed_events : List (Nat × Record × ErrorCode)
  reports : Report
deriving DecidableEq, Repr

/-- Modelled from the spec: Blob construction requires events and location;
position defaults to 0, num_rows defaults to the event count, failed_events
starts empty (the blob module is not in the snapshot). -/
def Blob.make (events : List Record) (location : String)
    (position : Nat := 0) : Blob :=
  { events := events, location := location, position := position,
    num_rows := events.length, failed_events := [], reports := 0 }

/-- Modelled from the spec: the loop guard `if blb:` skips sentinel/empty
blobs, so Python truthiness of a Blob is modelled as having at least one
event. -/
def Blob.isTruthy (b : Blob) : Bool :=
  !b.events.isEmpty

/-- A processed-range row of the monitoring table. -/
structure RangeRow where
  dag_name : String
  location : String
  start_pos : Nat
  end_pos : Nat
deriving DecidableEq, Repr

/-- A failed-event row of the monitoring table. -/
structure FailRow where
  dag_name : String
  location : String
  position : Nat
  event : Record
  error_code : ErrorCode
deriving DecidableEq, Repr

/-- Modelled from the spec: MonitoringHook.store_blob (module not in the
snapshot) writes one ProcessedRange(location, position, position + num_rows). -/
def storeBlobRow (dag_name location : String) (position num_rows : Nat) :
    RangeRow :=
  { dag_name := dag_name, location := location,
    start_pos := position, end_pos := position + num_rows }

/-- Modelled from the spec: MonitoringHook.store_events (module not in the
snapshot) upserts one FailedEventRecord per entry of the
(absolute_position, record, error_code) list it is given. -/
def storeEventRows (dag_name location : String)
    (tuples : List (Nat × Record × ErrorCode)) : List FailRow :=
  tuples.map fun t =>
    { dag_name := dag_name, location := location,
      position := t.1, event := t.2.1, error_code := t.2.2 }

/-- Run configuration consumed by BaseDataConnectorOperator.execute. -/
structure ConnectorConfig where
  dag_name : String
  is_retry : Bool
  return_report : Bool
  enable_monitoring : Bool
deriving DecidableEq, Repr

/-- The monitoring hook as seen by the operator: its failed-event replay
generator and its processed-ranges generator (MonitoringHook itself is not
in the snapshot; the operator only consumes these two generators). -/
structure MonitoringHookModel where
  replayBlobs : List Blob
  processedRanges : List RangeRow

/-- An input hook: a location and an events_blobs_generator taking the
processed-ranges generator as its exclusion argument. -/
structure InputHookModel where
  location : String
  gen : List RangeRow → List Blob

/-- Mutable state threaded through the operator loop: the collected
reports list, the monitoring rows written so far, and the blobs sent. -/
structure RunState where
  reports : List Report := []
  rangeRows : List RangeRow := []
  failRows : List FailRow := []
  sent : List Blob := []
deriving DecidableEq, Repr

/-- One iteration of the loop of BaseDataConnectorOperator.execute
(data_connector_operator_v2.py, lines 30..42): skip falsy blobs; otherwise
send, collect the report, and when monitoring is enabled call store_blob
and store_events on the sent blob. -/
def processBlob (cfg : ConnectorConfig) (send : Blob → Blob)
    (st : RunState) (blb : Blob) : RunState :=
  if blb.isTruthy then
    let s := send blb
    { reports := st.reports ++ [s.reports],
      sent := st.sent ++ [s],
      rangeRows := st.rangeRows ++
        (if cfg.enable_monitoring then
          [storeBlobRow cfg.dag_name s.location s.position s.num_rows]
        else []),
      failRows := st.failRows ++
        (if cfg.enable_monitoring then
          storeEventRows cfg.dag_name s.location s.failed_events
        else []) }
  else st

/-- Observable outcome of one call to BaseDataConnectorOperator.execute. -/
structure ExecResult where
  blobsIterated : List Blob
  final : RunState
  returned : Option (List Report)
deriving Repr

/-- BaseDataConnectorOperator.execute (data_connector_operator_v2.py,
lines 11..45): pick the blob generator by is_retry, run the loop, and
return the reports list only when return_report is set. -/
def BaseDataConnectorOperator.execute (cfg : ConnectorConfig)
    (monitor : MonitoringHookModel) (input_hook : InputHookModel)
    (send : Blob → Blob) : ExecResult :=
  let blob_generator :=
    if cfg.is_retry then monitor.replayBlobs
    else input_hook.gen monitor.processedRanges
  let final := blob_generator.foldl (processBlob cfg send) {}
  { blobsIterated := blob_generator,
    final := final,
    returned := if cfg.return_report then some final.reports else none }

/-- C1: the sequence of blobs the run iterates over is the replay
generator in retry mode and the input hook generator applied to the
processed-ranges generator in normal mode. -/
theorem execute_blob_source (cfg : ConnectorConfig)
    (monitor : MonitoringHookModel) (input_hook : InputHookModel)
    (send : Blob → Blob) :
    (BaseDataConnectorOperator.execute cfg monitor input_hook send).blobsIterated =
      if cfg.is_retry then monitor.replayBlobs
      else input_hook.gen monitor.processedRanges := by
  rfl

/-- C2: recording the outcome of a truthy blob with monitoring enabled
appends exactly one processed-range row (location, position,
position + num_rows) and one failed-event row per failed_events entry;
with monitoring disabled neither store call is made but the blob is still
delivered; a falsy blob is neither sent nor recorded. -/
theorem processBlob_record_outcome (cfg : ConnectorConfig)
    (send : Blob → Blob) (st : RunState) (b : Blob) :
    (b.isTruthy = true → cfg.enable_monitoring = true →
      processBlob cfg send st b =
        { reports := st.reports ++ [(send b).reports],
          sent := st.sent ++ [send b],
          rangeRows := st.rangeRows ++
            [storeBlobRow cfg.dag_name (send b).location (send b).position
              (send b).num_rows],
          failRows := st.failRows ++
            storeEventRows cfg.dag_name (send b).location
              (send b).failed_events } ∧
      (storeBlobRow cfg.dag_name (send b).location (send b).position
        (send b).num_rows).end_pos = (send b).position + (send b).num_rows ∧
      (storeEventRows cfg.dag_name (send b).location
        (send b).failed_events).length = (send b).failed_events.length) ∧
    (b.isTruthy = true → cfg.enable_monitoring = false →
      processBlob cfg send st b =
        { reports := st.reports ++ [(send b).reports],
          sent := st.sent ++ [send b],
          rangeRows := st.rangeRows,
          failRows := st.failRows }) ∧
    (b.isTruthy = false → processBlob cfg send st b = st) := by
  refine ⟨fun ht hm => ?_, fun ht hm => ?_, fun hf => ?_⟩
  · refine ⟨?_, rfl, by simp [storeEventRows]⟩
    simp [processBlob, ht, hm]
  · simp [processBlob, ht, hm]
  · simp [processBlob, hf]

/-- Witness for C2 at concrete inputs: a one-event blob with monitoring
enabled, the same with monitoring disabled, and an empty blob. -/
theorem processBlob_record_outcome_witness :
    (processBlob ⟨"d", false, false, true⟩ id {} (Blob.make [[("k", "v")]] "L" 3) =
      { reports := [0], sent := [Blob.make [[("k", "v")]] "L" 3],
        rangeRows := [storeBlobRow "d" "L" 3 1], failRows := [] }) ∧
    (processBlob ⟨"d", false, false, false⟩ id {} (Blob.make [[("k", "v")]] "L" 3) =
      { reports := [0], sent := [Blob.make [[("k", "v")]] "L" 3],
        rangeRows := [], failRows := [] }) ∧
    (processBlob ⟨"d", false, false, true⟩ id {} (Blob.make [] "L" 3) = {}) := by
  refine ⟨?_, ?_, ?_⟩
  · have h := (processBlob_record_outcome ⟨"d", false, false, true⟩ id {}
      (Blob.make [[("k", "v")]] "L" 3)).1 (by decide) rfl
    simpa [Blob.make, storeEventRows] using h.1
  · have h := (processBlob_record_outcome ⟨"d", false, false, false⟩ id {}
      (Blob.make [[("k", "v")]] "L" 3)).2.1 (by decide) rfl
    simpa [Blob.make] using h
  · exact (processBlob_record_outcome ⟨"d", false, false, true⟩ id {}
      (Blob.make [] "L" 3)).2.2 (by decide)

/-- The reports collected by the loop are the sink reports of the truthy
blobs, in iteration order, for any configuration. -/
theorem foldl_processBlob_reports (cfg : ConnectorConfig)
    (send : Blob → Blob) (gen : List Blob) (st : RunState) :
    (gen.foldl (processBlob cfg send) st).reports =
      st.reports ++ (gen.filter Blob.isTruthy).map fun b => (send b).reports := by
  induction gen generalizing st with
  | nil => simp
  | cons b rest ih =>
    by_cases hb : b.isTruthy
    · simp [List.foldl_cons, ih, processBlob, hb]
    · simp [List.foldl_cons, ih, processBlob, hb]

/-- C5 (amended): the run returns the ordered list of per-blob sink
reports exactly when return_report is set and returns no value otherwise;
the reports list itself is collected unconditionally, one report per
truthy blob in processing order, whatever the value of return_report. -/
theorem execute_return_report (cfg : ConnectorConfig)
    (monitor : MonitoringHookModel) (input_hook : InputHookModel)
    (send : Blob → Blob) :
    (BaseDataConnectorOperator.execute cfg monitor input_hook send).returned =
      (if cfg.return_report then
        some (BaseDataConnectorOperator.execute cfg monitor input_hook send).final.reports
      else none) ∧
    (BaseDataConnectorOperator.execute cfg monitor input_hook send).final.reports =
      (((BaseDataConnectorOperator.execute cfg monitor input_hook
          send).blobsIterated.filter Blob.isTruthy).map fun b => (send b).reports) := by
  constructor
  · rfl
  · simpa using foldl_processBlob_reports cfg send
      (if cfg.is_retry then monitor.replayBlobs
       else input_hook.gen monitor.processedRanges) {}

/-- C5 counterexample: with return_report false and one truthy blob the
internal reports list is nevertheless non-empty, refuting the clause that
reports are collected only if return_report is configured. -/
theorem execute_reports_collected_without_flag :
    (ConnectorConfig.mk "d" true false true).return_report = false ∧
    (BaseDataConnectorOperator.execute (ConnectorConfig.mk "d" true false true)
      ⟨[{ events := [[("k", "v")]], location := "L", position := 0,
          num_rows := 1, failed_events := [], reports := 7 }], []⟩
      ⟨"L", fun _ => []⟩ id).final.reports ≠ [] := by
  constructor
  · rfl
  · decide

/-- Python exception kinds surfaced by the embedded task code. -/
inductive PyExc
  | attributeError
  | monitoringValueError
deriving DecidableEq, Repr

/-- Constructor parameters of MonitorTask (data_connector_taskgroup.py,
lines 94..122); the monitoring coordinates default to empty strings and
enable_monitoring defaults to true, as in the source. -/
structure MonitorTaskParams where
  dag_name : String
  monitoring_dataset : String := ""
  monitoring_table : String := ""
  monitoring_bq_conn_id : String := ""
  enable_monitoring : Bool := true
deriving DecidableEq, Repr

/-- State of a successfully constructed MonitorTask. -/
structure MonitorTaskState where
  dag_name : String
  enable_monitoring : Bool
  monitor_location : String
deriving DecidableEq, Repr

/-- MonitorTask.__init__ (data_connector_taskgroup.py, lines 96..122):
raise MonitoringValueError when monitoring is enabled and any of the three
monitoring parameters is falsy (an empty string); otherwise build the
monitoring hook and succeed. -/
def MonitorTask.init (p : MonitorTaskParams) (input_location : String) :
    Except PyExc MonitorTaskState :=
  if p.enable_monitoring = true ∧ (p.monitoring_dataset = "" ∨
      p.monitoring_table = "" ∨ p.monitoring_bq_conn_id = "") then
    .error .monitoringValueError
  else
    .ok { dag_name := p.dag_name, enable_monitoring := p.enable_monitoring,
          monitor_location := input_location }

/-- MonitorTask.execute (data_connector_taskgroup.py, lines 124..137):
when monitoring is enabled, store one range row and the failed-event rows
for every truthy blob pulled from fetch_data; it contains no raise. -/
def MonitorTask.execute (st : MonitorTaskState) (blobs : List Blob) :
    List RangeRow × List FailRow :=
  if st.enable_monitoring then
    blobs.foldl
      (fun acc blb =>
        if blb.isTruthy then
          (acc.1 ++ [storeBlobRow st.dag_name blb.location blb.position
            blb.num_rows],
           acc.2 ++ storeEventRows st.dag_name blb.location blb.failed_events)
        else acc)
      ([], [])
  else ([], [])

/-- C6: MonitorTask construction raises the monitoring configuration
error exactly when monitoring is enabled and some monitoring parameter is
missing or empty; the check happens at construction, before any blob is
processed, and the execute loop is error-free by its type. -/
theorem monitorTask_init_config_check (p : MonitorTaskParams)
    (input_location : String) :
    MonitorTask.init p input_location = .error .monitoringValueError ↔
      p.enable_monitoring = true ∧ (p.monitoring_dataset = "" ∨
        p.monitoring_table = "" ∨ p.monitoring_bq_conn_id = "") := by
  unfold MonitorTask.init
  split
  · next h => simpa using h
  · next h => simpa using h

/-- Constructor state of FetchDataTask (data_connector_taskgroup.py,
lines 46..54): only input_hook and is_retry are assigned; no monitor
attribute exists on the instance, modelled as an Option left at none. -/
structure FetchDataTaskState where
  input_hook : InputHookModel
  is_retry : Bool
  monitor : Option MonitoringHookModel

/-- FetchDataTask.__init__: assigns input_hook and is_retry and nothing
else, so the monitor attribute is absent. -/
def FetchDataTask.init (input_hook : InputHookModel) (is_retry : Bool) :
    FetchDataTaskState :=
  { input_hook := input_hook, is_retry := is_retry, monitor := none }

/-- Attribute lookup of self.monitor: absent attributes raise
AttributeError. -/
def FetchDataTaskState.getMonitor (self : FetchDataTaskState) :
    Except PyExc MonitoringHookModel :=
  match self.monitor with
  | none => .error .attributeError
  | some m => .ok m

/-- FetchDataTask.execute (data_connector_taskgroup.py, lines 56..69):
both branches first read self.monitor, then build the blob generator and
collect the truthy blobs into a list. -/
def FetchDataTask.execute (self : FetchDataTaskState) :
    Except PyExc (List Blob) := do
  let blob_generator ←
    if self.is_retry then do
      let m ← self.getMonitor
      pure m.replayBlobs
    else do
      let m ← self.getMonitor
      let processed_blobs_generator := m.processedRanges
      pure (self.input_hook.gen processed_blobs_generator)
  pure (blob_generator.foldl
    (fun blobs blb => if blb.isTruthy then blobs ++ [blb] else blobs) [])

/-- C9: every FetchDataTask built by its constructor raises
AttributeError on execute, in retry mode and in normal mode alike, and so
never returns a list of blobs. -/
theorem fetchDataTask_execute_attribute_error (input_hook : InputHookModel)
    (is_retry : Bool) :
    FetchDataTask.execute (FetchDataTask.init input_hook is_retry) =
      .error .attributeError := by
  cases is_retry <;>
    simp [FetchDataTask.execute, FetchDataTask.init,
      FetchDataTaskState.getMonitor]

/-- DAG-level configuration flags read by BaseDag from Airflow variables. -/
structure DagConfig where
  dag_is_retry : Bool
  dag_is_run : Bool
  dag_enable_monitoring_cleanup : Bool
deriving DecidableEq, Repr

/-- The tasks BaseDag.create_dag can attach to the DAG. -/
inductive DagTask
  | retry_task
  | run_task
  | cleanup_task
deriving DecidableEq, Repr

/-- The delivery tasks are the retry-mode and normal-mode run tasks. -/
def DagTask.isDelivery : DagTask → Bool
  | .retry_task => true
  | .run_task => true
  | .cleanup_task => false

/-- A DAG as a task list plus directed edges (upstream, downstream). -/
structure DagGraph where
  tasks : List DagTask
  edges : List (DagTask × DagTask)
deriving DecidableEq, Repr

/-- BaseDag.create_dag (base_dag.py, lines 181..207), successful task
creation path: create the retry task when dag_is_retry; when dag_is_run,
create the run task, set it downstream of the retry task when dag_is_retry,
and when dag_enable_monitoring_cleanup also create the cleanup task and
set it upstream of the retry task (or of the run task without retry). -/
def BaseDag.create_dag (cfg : DagConfig) : DagGraph :=
  let g0 : DagGraph := { tasks := [], edges := [] }
  let g1 := if cfg.dag_is_retry then
      { g0 with tasks := g0.tasks ++ [DagTask.retry_task] }
    else g0
  if cfg.dag_is_run then
    let g2 := { g1 with tasks := g1.tasks ++ [DagTask.run_task] }
    let g3 := if cfg.dag_is_retry then
        { g2 with edges := g2.edges ++ [(DagTask.retry_task, DagTask.run_task)] }
      else g2
    if cfg.dag_enable_monitoring_cleanup then
      let g4 := { g3 with tasks := g3.tasks ++ [DagTask.cleanup_task] }
      if cfg.dag_is_retry then
        { g4 with edges := g4.edges ++ [(DagTask.cleanup_task, DagTask.retry_task)] }
      else
        { g4 with edges := g4.edges ++ [(DagTask.cleanup_task, DagTask.run_task)] }
    else g3
  else g1

/-- C7: with both dag_is_retry and dag_is_run enabled, exactly the two
delivery tasks retry_task and run_task are created and the run task is
downstream of the retry task. -/
theorem create_dag_retry_then_run (cfg : DagConfig)
    (hr : cfg.dag_is_retry = true) (hn : cfg.dag_is_run = true) :
    ((BaseDag.create_dag cfg).tasks.filter DagTask.isDelivery) =
      [DagTask.retry_task, DagTask.run_task] ∧
    (DagTask.retry_task, DagTask.run_task) ∈ (BaseDag.create_dag cfg).edges := by
  cases cfg with
  | mk r n c =>
    subst hr hn
    cases c <;> simp [BaseDag.create_dag, DagTask.isDelivery]

/-- Witness for C7 at a concrete configuration with cleanup disabled. -/
theorem create_dag_retry_then_run_witness :
    ((BaseDag.create_dag ⟨true, true, false⟩).tasks.filter DagTask.isDelivery) =
      [DagTask.retry_task, DagTask.run_task] ∧
    (DagTask.retry_task, DagTask.run_task) ∈
      (BaseDag.create_dag ⟨true, true, false⟩).edges :=
  create_dag_retry_then_run ⟨true, true, false⟩ rfl rfl

/-- C10 counterexample: with cleanup enabled, retry enabled and the main
run disabled, no cleanup task is created at all, so pruning is not wired
upstream of the retry task as the claim states. -/
theorem create_dag_cleanup_missing_without_run :
    (DagConfig.mk true false true).dag_enable_monitoring_cleanup = true ∧
    DagTask.cleanup_task ∉ (BaseDag.create_dag (DagConfig.mk true false true)).tasks ∧
    (BaseDag.create_dag (DagConfig.mk true false true)).edges = [] := by
  refine ⟨rfl, ?_, rfl⟩
  decide

/-- C10 (amended): when cleanup and dag_is_run are both enabled, the
cleanup task is created and wired upstream of the retry task (or of the
run task when dag_is_retry is disabled), and no edge ever points into the
cleanup task, so pruning precedes the delivery tasks. -/
theorem create_dag_cleanup_upstream (cfg : DagConfig)
    (hc : cfg.dag_enable_monitoring_cleanup = true)
    (hn : cfg.dag_is_run = true) :
    DagTask.cleanup_task ∈ (BaseDag.create_dag cfg).tasks ∧
    (DagTask.cleanup_task,
      if cfg.dag_is_retry then DagTask.retry_task else DagTask.run_task) ∈
      (BaseDag.create_dag cfg).edges ∧
    ∀ t : DagTask, (t, DagTask.cleanup_task) ∉ (BaseDag.create_dag cfg).edges := by
  cases cfg with
  | mk r n c =>
    subst hc hn
    cases r <;> simp [BaseDag.create_dag]

/-- Witness for C10 amended, at both retry settings. -/
theorem create_dag_cleanup_upstream_witness :
    (DagTask.cleanup_task ∈ (BaseDag.create_dag ⟨true, true, true⟩).tasks ∧
      (DagTask.cleanup_task, DagTask.retry_task) ∈
        (BaseDag.create_dag ⟨true, true, true⟩).edges) ∧
    (DagTask.cleanup_task, DagTask.run_task) ∈
      (BaseDag.create_dag ⟨false, true, true⟩).edges := by
  have h1 := create_dag_cleanup_upstream ⟨true, true, true⟩ rfl rfl
  have h2 := create_dag_cleanup_upstream ⟨false, true, true⟩ rfl rfl
  exact ⟨⟨h1.1, by simpa using h1.2.1⟩, by simpa using h2.2.1⟩

/-- The CUSTOMER_ID field name the ads hooks group events by. -/
def CUSTOMER_ID : String := "customer_id"

/-- Customer id of an event, the grouping key of the v2 ads hooks. -/
def customerId (r : Record) : String :=
  (r.lookup CUSTOMER_ID).getD ""

/-- Distinct keys in order of first occurrence (Python dict grouping). -/
def keysInOrder (l : List String) : List String :=
  l.foldl (fun acc k => if k ∈ acc then acc else acc ++ [k]) []

/-- The (index, event) payloads of one customer group. -/
def groupPayloads (indexed : List (Nat × Record)) (k : String) :
    List (Nat × Record) :=
  indexed.filter fun p => customerId p.2 == k

/-- Outcome of the underlying per-group upload call: a transport-level
exception carrying its error code, or a per-record failure list of
(index within blob, error code) pairs. -/
abbrev UploadFn := List (Nat × Record) → Except ErrorCode (List (Nat × ErrorCode))

/-- Run the upload once per customer group; a transport error stops the
iteration at once. Returns the aggregate result and the number of upload
calls actually made. -/
def runUploads (upload : UploadFn) (indexed : List (Nat × Record)) :
    List String → Except ErrorCode (List (Nat × ErrorCode)) × Nat
  | [] => (.ok [], 0)
  | k :: ks =>
    match upload (groupPayloads indexed k) with
    | .error c => (.error c, 1)
    | .ok fails =>
      match runUploads upload indexed ks with
      | (.ok more, n) => (.ok (fails ++ more), n + 1)
      | (.error c, n) => (.error c, n + 1)

/-- A sent blob together with how many underlying upload calls were made. -/
structure SendOutcome where
  blob : Blob
  uploadCalls : Nat

/-- Modelled from the spec: send_events of the v2 ads hooks
(ads_oc_hook_v2 / ads_cm_hook_v2, modules absent from the snapshot; their
unit tests remain). Events are grouped by customer id and the underlying
upload is invoked once per group with (index, event) payloads. A
transport-level exception marks every record of the whole blob failed as
(position + index, record, code) with the single code carried by the
exception and aborts further upload attempts; a successful call returns a
per-record failure list and exactly the reported indices are marked. -/
def send_events (upload : UploadFn) (blob : Blob) : SendOutcome :=
  let indexed := blob.events.enum
  let keys := keysInOrder (indexed.map fun p => customerId p.2)
  match runUploads upload indexed keys with
  | (.error c, n) =>
    { blob := { blob with
        failed_events := indexed.map fun p => (blob.position + p.1, p.2, c) },
      uploadCalls := n }
  | (.ok fails, n) =>
    { blob := { blob with
        failed_events := fails.map fun q =>
          (blob.position + q.1, (blob.events.get? q.1).getD [], q.2) },
      uploadCalls := n }

/-- Folding the key collector keeps a non-empty accumulator non-empty. -/
theorem keysInOrder_go_ne_nil (l : List String) (acc : List String)
    (hacc : acc ≠ []) :
    l.foldl (fun acc k => if k ∈ acc then acc else acc ++ [k]) acc ≠ [] := by
  induction l generalizing acc with
  | nil => simpa using hacc
  | cons k ks ih =>
    simp only [List.foldl_cons]
    by_cases hk : k ∈ acc
    · simp only [hk, if_pos]
      exact ih acc hacc
    · simp only [hk, if_neg, not_false_iff]
      exact ih (acc ++ [k]) (by simp)

/-- A non-empty list yields a non-empty key list. -/
theorem keysInOrder_ne_nil (l : List String) (h : l ≠ []) :
    keysInOrder l ≠ [] := by
  cases l with
  | nil => exact absurd rfl h
  | cons k ks =>
    unfold keysInOrder
    simp only [List.foldl_cons, List.not_mem_nil, if_neg, List.nil_append]
    exact keysInOrder_go_ne_nil ks [k] (by simp)

/-- C3: when the underlying upload raises a transport-level error with
code c, send_events on a non-empty blob marks all records failed as
(position + i, record at i, c) with the one shared code c, and the upload
is attempted exactly once, never again for the remaining records. -/
theorem send_events_systemic (upload : UploadFn) (blob : Blob)
    (c : ErrorCode) (herr : ∀ p, upload p = .error c)
    (hne : blob.events ≠ []) :
    (send_events upload blob).blob.failed_events =
      (blob.events.enum.map fun p => (blob.position + p.1, p.2, c)) ∧
    (send_events upload blob).uploadCalls = 1 := by
  have hkeys : keysInOrder (blob.events.enum.map fun p => customerId p.2) ≠ [] := by
    apply keysInOrder_ne_nil
    simpa using hne
  unfold send_events
  cases hk : keysInOrder (blob.events.enum.map fun p => customerId p.2) with
  | nil => exact absurd hk hkeys
  | cons k ks =>
    simp [hk, runUploads, herr]

/-- Witness for C3: a two-event blob at position 1000 whose upload always
raises code 10, mirroring test_send_events_request_failure. -/
theorem send_events_systemic_witness :
    (send_events (fun _ => .error 10)
        (Blob.make [[(CUSTOMER_ID, "12345")], [(CUSTOMER_ID, "12345")]] "" 1000)).blob.failed_events =
      ((Blob.make [[(CUSTOMER_ID, "12345")], [(CUSTOMER_ID, "12345")]] "" 1000).events.enum.map
        fun p => ((Blob.make [[(CUSTOMER_ID, "12345")], [(CUSTOMER_ID, "12345")]] "" 1000).position + p.1, p.2, 10)) ∧
    (send_events (fun _ => .error 10)
        (Blob.make [[(CUSTOMER_ID, "12345")], [(CUSTOMER_ID, "12345")]] "" 1000)).uploadCalls = 1 :=
  send_events_systemic (fun _ => .error 10)
    (Blob.make [[(CUSTOMER_ID, "12345")], [(CUSTOMER_ID, "12345")]] "" 1000) 10
    (fun _ => rfl) (by decide)

/-- C4: when every per-group upload call succeeds and the aggregated
per-record failure list reports each index at most once, send_events marks
exactly the reported indices: the failed_events are precisely the
reported (position + index, record at index, code) triples, and for every
index i the number of failed_events entries at absolute position
position + i is one when i is reported and zero otherwise — each record
ends up delivered or failed, never both, never neither. -/
theorem send_events_two_state (upload : UploadFn) (blob : Blob)
    (fails : List (Nat × ErrorCode)) (n : Nat)
    (hok : runUploads upload blob.events.enum
        (keysInOrder (blob.events.enum.map fun p => customerId p.2)) =
      (.ok fails, n))
    (hnd : (fails.map Prod.fst).Nodup) :
    (send_events upload blob).blob.failed_events =
      (fails.map fun q =>
        (blob.position + q.1, (blob.events.get? q.1).getD [], q.2)) ∧
    ∀ i : Nat,
      ((send_events upload blob).blob.failed_events.countP
          fun e => e.1 == blob.position + i) =
        if i ∈ fails.map Prod.fst then 1 else 0 := by
  have hfe : (send_events upload blob).blob.failed_events =
      fails.map fun q =>
        (blob.position + q.1, (blob.events.get? q.1).getD [], q.2) := by
    simp only [send_events, hok]
  refine ⟨hfe, fun i => ?_⟩
  rw [hfe, List.countP_map]
  have hcong : (fails.countP
      ((fun e : Nat × Record × ErrorCode => e.1 == blob.position + i) ∘
        fun q => (blob.position + q.1, (blob.events.get? q.1).getD [], q.2))) =
      fails.countP fun q => q.1 == i := by
    apply List.countP_congr
    intro q _
    simp [Function.comp, Nat.add_right_cancel_iff]
  rw [hcong]
  have hmap : (fails.countP fun q => q.1 == i) =
      (fails.map Prod.fst).countP fun a => a == i := by
    rw [List.countP_map]
    rfl
  rw [hmap, ← List.count_eq_countP, List.count_eq_of_nodup hnd]

/-- Witness for C4: a two-event single-customer blob whose upload reports
only index 0 failed with code 7; index 0 gets one failed entry and
index 1 none. -/
theorem send_events_two_state_witness :
    ((send_events (fun _ => .ok [(0, 7)])
        (Blob.make [[(CUSTOMER_ID, "12345")], [(CUSTOMER_ID, "12345")]] "" 100)).blob.failed_events.countP
      fun e => e.1 == 100 + 0) = 1 ∧
    ((send_events (fun _ => .ok [(0, 7)])
        (Blob.make [[(CUSTOMER_ID, "12345")], [(CUSTOMER_ID, "12345")]] "" 100)).blob.failed_events.countP
      fun e => e.1 == 100 + 1) = 0 := by
  have h := send_events_two_state (fun _ => .ok [(0, 7)])
    (Blob.make [[(CUSTOMER_ID, "12345")], [(CUSTOMER_ID, "12345")]] "" 100)
    [(0, 7)] 1 rfl (by decide)
  constructor
  · simpa using h.2 0
  · simpa using h.2 1

/-- A Python value as handled by BaseDag.get_variable_value: None, a
string, an int or a bool. -/
inductive PyVal
  | pynone
  | str (s : String)
  | int (n : Int)
  | bool (b : Bool)
deriving DecidableEq, Repr

/-- The expected_type argument: per the docstring it can be str, int and
bool. -/
inductive PyType
  | str
  | int
  | bool
deriving DecidableEq, Repr

/-- Python isinstance for the modelled values; bool is a subclass of int. -/
def isinstance : PyVal → PyType → Bool
  | .str _, .str => true
  | .int _, .int => true
  | .bool _, .bool => true
  | .bool _, .int => true
  | _, _ => false

/-- Python equality between the modelled values; True equals 1 and False
equals 0, values of unrelated types compare unequal. -/
def pyEq : PyVal → PyVal → Bool
  | .pynone, .pynone => true
  | .str s, .str t => s == t
  | .int a, .int b => a == b
  | .bool a, .bool b => a == b
  | .bool a, .int b => (if a then (1 : Int) else 0) == b
  | .int a, .bool b => a == (if b then (1 : Int) else 0)
  | _, _ => false

/-- Python truthiness of the modelled values. -/
def pyTruthy : PyVal → Bool
  | .pynone => false
  | .str s => !s.isEmpty
  | .int n => n != 0
  | .bool b => b

/-- Exceptions the resolver can raise. -/
inductive PyErr
  | valueError
  | typeError
deriving DecidableEq, Repr

/-- Python str() of the modelled values. -/
def pyStr : PyVal → String
  | .pynone => "None"
  | .str s => s
  | .int n => toString n
  | .bool b => if b then "True" else "False"

/-- Strip leading and trailing spaces from a character list. -/
def stripSpaces (l : List Char) : List Char :=
  ((l.dropWhile (· = ' ')).reverse.dropWhile (· = ' ')).reverse

/-- Parse a non-empty run of decimal digits. -/
def parseDigits (l : List Char) : Option Nat :=
  if l.isEmpty then none
  else
    l.foldl
      (fun acc c =>
        match acc with
        | none => none
        | some n => if c.isDigit then some (n * 10 + (c.toNat - 48)) else none)
      (some 0)

/-- Python int() applied to a string: an optional sign and decimal digits
surrounded by whitespace; anything else raises ValueError. -/
def pyIntOfString (s : String) : Except PyErr Int :=
  match stripSpaces s.toList with
  | '-' :: rest =>
    match parseDigits rest with
    | some n => .ok (-(n : Int))
    | none => .error .valueError
  | '+' :: rest =>
    match parseDigits rest with
    | some n => .ok (n : Int)
    | none => .error .valueError
  | l =>
    match parseDigits l with
    | some n => .ok (n : Int)
    | none => .error .valueError

/-- Python expected_type(val) for str, int and bool: str() and bool()
never raise; int() raises ValueError on a bad string and TypeError on
None. -/
def pyConvert : PyType → PyVal → Except PyErr PyVal
  | .str, v => .ok (.str (pyStr v))
  | .int, .int n => .ok (.int n)
  | .int, .bool b => .ok (.int (if b then 1 else 0))
  | .int, .str s => (pyIntOfString s).map PyVal.int
  | .int, .pynone => .error .typeError
  | .bool, v => .ok (.bool (pyTruthy v))

/-- Airflow Variable.get over an explicit variable store: the stored
value when present, the given default otherwise. -/
def Variable.get (store : String → Option PyVal) (key : String)
    (default : PyVal) : PyVal :=
  (store key).getD default

/-- The tail of get_variable_value: convert the selected value with
expected_type, returning fallback_value when the conversion raises
ValueError and propagating TypeError. -/
def convertOrFallback (expected_type : PyType) (fallback_value v : PyVal) :
    Except PyErr PyVal :=
  match pyConvert expected_type v with
  | .ok r => .ok r
  | .error .valueError => .ok fallback_value
  | .error .typeError => .error .typeError

/-- BaseDag.get_variable_value (base_dag.py, lines 278..309): when
fallback_value is not None and not an instance of expected_type, raise
TypeError; otherwise look up the prefixed name with var_not_found_flag as
default, fall back to the bare name with fallback_value as default when
the first result equals the flag, and convert the result, mapping
ValueError to fallback_value. -/
def BaseDag.get_variable_value (store : String → Option PyVal)
    (pfx variable_name : String) (expected_type : PyType)
    (fallback_value : PyVal := .str "")
    (var_not_found_flag : PyVal := .pynone) : Except PyErr PyVal :=
  if fallback_value ≠ PyVal.pynone ∧
      isinstance fallback_value expected_type = false then
    .error .typeError
  else
    let val := Variable.get store (pfx ++ "_" ++ variable_name)
      var_not_found_flag
    let val := if pyEq val var_not_found_flag then
        Variable.get store variable_name fallback_value
      else val
    convertOrFallback expected_type fallback_value val

/-- C8 counterexample: with fallback_value None (whose type does not
match expected_type int) and the prefixed variable holding the string 5,
no TypeError is raised; the resolver returns the converted int 5, because
the source guards the type check behind fallback_value is not None. -/
theorem get_variable_value_none_fallback_no_type_error :
    isinstance PyVal.pynone PyType.int = false ∧
    BaseDag.get_variable_value
        (fun k => if k = "p_x" then some (.str "5") else none)
        "p" "x" PyType.int PyVal.pynone PyVal.pynone = .ok (.int 5) := by
  constructor
  · rfl
  · rfl

/-- C8 (amended): the resolver raises TypeError exactly for a non-None
fallback_value not an instance of expected_type (a None fallback skips
the check); otherwise it returns the conversion of the value stored under
the prefixed name when that value is present and differs from
var_not_found_flag under Python equality, never consulting the bare name;
when the prefixed name is absent it resolves the bare name with
fallback_value as default; and whenever the conversion of the selected
value raises ValueError the fallback_value is returned instead. -/
theorem get_variable_value_layered (store : String → Option PyVal)
    (pfx variable_name : String) (expected_type : PyType)
    (fallback_value var_not_found_flag v : PyVal) :
    (fallback_value ≠ PyVal.pynone →
      isinstance fallback_value expected_type = false →
      BaseDag.get_variable_value store pfx variable_name expected_type
        fallback_value var_not_found_flag = .error .typeError) ∧
    (fallback_value = PyVal.pynone ∨
        isinstance fallback_value expected_type = true →
      store (pfx ++ "_" ++ variable_name) = some v →
      pyEq v var_not_found_flag = false →
      BaseDag.get_variable_value store pfx variable_name expected_type
        fallback_value var_not_found_flag =
        convertOrFallback expected_type fallback_value v) ∧
    (fallback_value = PyVal.pynone ∨
        isinstance fallback_value expected_type = true →
      store (pfx ++ "_" ++ variable_name) = none →
      BaseDag.get_variable_value store pfx variable_name expected_type
        fallback_value var_not_found_flag =
        convertOrFallback expected_type fallback_value
          (Variable.get store variable_name fallback_value)) ∧
    (pyConvert expected_type v = .error .valueError →
      convertOrFallback expected_type fallback_value v = .ok fallback_value) := by
  have hguard : fallback_value = PyVal.pynone ∨
      isinstance fallback_value expected_type = true →
      ¬(fallback_value ≠ PyVal.pynone ∧
        isinstance fallback_value expected_type = false) := by
    rintro (h | h) ⟨h1, h2⟩
    · exact h1 h
    · rw [h] at h2
      exact Bool.noConfusion h2
  refine ⟨fun hne hmis => ?_, fun hok hst hflag => ?_, fun hok hst => ?_,
    fun hve => ?_⟩
  · simp [BaseDag.get_variable_value, hne, hmis]
  · rw [BaseDag.get_variable_value, if_neg (hguard hok)]
    have hval : Variable.get store (pfx ++ "_" ++ variable_name)
        var_not_found_flag = v := by
      simp [Variable.get, hst]
    simp only [hval, hflag, Bool.false_eq_true, if_false]
  · rw [BaseDag.get_variable_value, if_neg (hguard hok)]
    have hval : Variable.get store (pfx ++ "_" ++ variable_name)
        var_not_found_flag = var_not_found_flag := by
      simp [Variable.get, hst]
    have hrefl : pyEq var_not_found_flag var_not_found_flag = true := by
      cases var_not_found_flag <;> simp [pyEq]
    simp only [hval, hrefl, if_true]
  · simp [convertOrFallback, hve]

/-- Witness for C8 amended: concrete stores exercising the TypeError
branch, the prefixed hit, the bare-name fall-through and the ValueError
fallback. -/
theorem get_variable_value_layered_witness :
    (BaseDag.get_variable_value (fun _ => none) "p" "x" PyType.int
      (.str "") .pynone = .error .typeError) ∧
    (BaseDag.get_variable_value
        (fun k => if k = "p_x" then some (.str "7") else none)
        "p" "x" PyType.int (.int 0) .pynone =
      convertOrFallback PyType.int (.int 0) (.str "7")) ∧
    (BaseDag.get_variable_value
        (fun k => if k = "x" then some (.str "9") else none)
        "p" "x" PyType.int (.int 0) .pynone =
      convertOrFallback PyType.int (.int 0)
        (Variable.get (fun k => if k = "x" then some (.str "9") else none)
          "x" (.int 0))) ∧
    (convertOrFallback PyType.int (.int 0) (.str "oops") = .ok (.int 0)) := by
  refine ⟨?_, ?_, ?_, ?_⟩
  · exact (get_variable_value_layered (fun _ => none) "p" "x" PyType.int
      (.str "") .pynone .pynone).1 (by decide) rfl
  · exact (get_variable_value_layered
      (fun k => if k = "p_x" then some (.str "7") else none)
      "p" "x" PyType.int (.int 0) .pynone (.str "7")).2.1 (Or.inr rfl)
      rfl rfl
  · exact (get_variable_value_layered
      (fun k => if k = "x" then some (.str "9") else none)
      "p" "x" PyType.int (.int 0) .pynone .pynone).2.2.1 (Or.inr rfl)
      rfl
  · exact (get_variable_value_layered (fun _ => none) "p" "x" PyType.int
      (.int 0) .pynone (.str "oops")).2.2.2 rfl

end TaglessCRM
